import Mathlib

/-!
Shallow embedding of `hosts-digger` (src/src/lib.rs): a parser for the
`/etc/hosts` static host-to-address mapping format, together with the
`Record` validation gate.

The repository file `src/src/lib.rs` defines `Record`, the error enums,
`Part` and `Parser`, but the `Address` enum it uses refers to types
`Ipv4Address` / `Ipv6Address` and methods (`is_private`, `is_loopback`,
`to_string`, `FromStr`) that are not present under `src/`.  Those missing
pieces are modelled from the spec (section 4.1) and carry doc comments
starting `Modelled from the spec:`.  Everything else is translated
directly from the Rust source.
-/

deriving instance DecidableEq for Except

namespace HostsDigger

/-- Modelled from the spec: the `Ipv4Address` type used by `Address::Ipv4`
is missing from `src/`; the spec says each variant wraps a fixed-width
numeric network address.  A v4 address is four octets. -/
structure Ipv4Address where
  o0 : Nat
  o1 : Nat
  o2 : Nat
  o3 : Nat
deriving DecidableEq

/-- Modelled from the spec: the `Ipv6Address` type used by `Address::Ipv6`
is missing from `src/`; a v6 address is eight 16-bit groups. -/
structure Ipv6Address where
  g0 : Nat
  g1 : Nat
  g2 : Nat
  g3 : Nat
  g4 : Nat
  g5 : Nat
  g6 : Nat
  g7 : Nat
deriving DecidableEq

/-- `pub enum Address { Ipv4(Ipv4Address), Ipv6(Ipv6Address) }` from the
source. -/
inductive Address where
  | Ipv4 : Ipv4Address → Address
  | Ipv6 : Ipv6Address → Address
deriving DecidableEq

namespace Address

/-- Modelled from the spec: `is_loopback()` is missing from `src/`.
Spec section 4.1: v4 loopback is 127.0.0.0/8; v6 loopback is `::1`. -/
def is_loopback : Address → Bool
  | .Ipv4 a => a.o0 = 127
  | .Ipv6 a =>
      a.g0 = 0 && a.g1 = 0 && a.g2 = 0 && a.g3 = 0 &&
      a.g4 = 0 && a.g5 = 0 && a.g6 = 0 && a.g7 = 1

/-- Modelled from the spec: `is_private()` is missing from `src/`.
Spec section 4.1: v4 private ranges are 10.0.0.0/8, 172.16.0.0/12 and
192.168.0.0/16; v6 unique-local is fc00::/7 (first 7 bits 1111110,
i.e. first group between 0xfc00 and 0xfdff). -/
def is_private : Address → Bool
  | .Ipv4 a =>
      a.o0 = 10 ||
      (a.o0 = 172 && 16 ≤ a.o1 && a.o1 ≤ 31) ||
      (a.o0 = 192 && a.o1 = 168)
  | .Ipv6 a => 0xfc00 ≤ a.g0 && a.g0 ≤ 0xfdff

/-- Modelled from the spec: `is_global()` (spec section 4.1) is the
complement of loopback/private. -/
def is_global (a : Address) : Bool :=
  !(a.is_loopback || a.is_private)

/-- Decimal digits of a natural number, as characters. -/
def natDec (n : Nat) : String :=
  String.mk (Nat.toDigits 10 n)

/-- Hexadecimal digits of a natural number, as characters. -/
def natHex (n : Nat) : String :=
  String.mk (Nat.toDigits 16 n)

/-- Modelled from the spec: `to_string` (used by `Record::new` for the
error payload) is missing from `src/`; the spec only fixes the textual
forms as dotted-decimal v4 and colon-hex v6. -/
def to_string : Address → String
  | .Ipv4 a =>
      natDec a.o0 ++ "." ++ natDec a.o1 ++ "." ++ natDec a.o2 ++ "." ++ natDec a.o3
  | .Ipv6 a =>
      natHex a.g0 ++ ":" ++ natHex a.g1 ++ ":" ++ natHex a.g2 ++ ":" ++
      natHex a.g3 ++ ":" ++ natHex a.g4 ++ ":" ++ natHex a.g5 ++ ":" ++
      natHex a.g6 ++ ":" ++ natHex a.g7

end Address

/-- `RecordError::InvalidIpAddress(String)` from the source (the spec
calls this variant `InvalidAddress`). -/
inductive RecordError where
  | InvalidIpAddress : String → RecordError
deriving DecidableEq

/-- `struct Record { addr: Address, names: Vec<String> }` from the
source: one validated hosts-file entry. -/
structure Record where
  addr : Address
  names : List String
deriving DecidableEq

/-- `Record::new` from the source:
succeeds iff `addr.is_private() || addr.is_loopback()`, otherwise fails
with `InvalidIpAddress(addr.to_string())`. -/
def Record.new (addr : Address) (names : List String) :
    Except RecordError Record :=
  if addr.is_private || addr.is_loopback then
    Except.ok { addr := addr, names := names }
  else
    Except.error (RecordError.InvalidIpAddress addr.to_string)

/-- `std::net::AddrParseError` as used by `ParserError::ParseError`: an
error value with no observable payload. -/
inductive AddrParseError where
  | mk : AddrParseError
deriving DecidableEq

/-- Splits a character list at every occurrence of the separator, keeping
empty chunks, like Rust `str::split(char)`. -/
def splitChar (sep : Char) : List Char → List (List Char)
  | [] => [[]]
  | c :: rest =>
      if c = sep then
        [] :: splitChar sep rest
      else
        match splitChar sep rest with
        | [] => [[c]]
        | chunk :: chunks => (c :: chunk) :: chunks

/-- Value of a decimal digit character, if it is one. -/
def decDigit? (c : Char) : Option Nat :=
  if c = '0' then some 0 else if c = '1' then some 1
  else if c = '2' then some 2 else if c = '3' then some 3
  else if c = '4' then some 4 else if c = '5' then some 5
  else if c = '6' then some 6 else if c = '7' then some 7
  else if c = '8' then some 8 else if c = '9' then some 9
  else none

/-- Value of a hexadecimal digit character, if it is one. -/
def hexDigit? (c : Char) : Option Nat :=
  match decDigit? c with
  | some d => some d
  | none =>
      if c = 'a' || c = 'A' then some 10 else if c = 'b' || c = 'B' then some 11
      else if c = 'c' || c = 'C' then some 12 else if c = 'd' || c = 'D' then some 13
      else if c = 'e' || c = 'E' then some 14 else if c = 'f' || c = 'F' then some 15
      else none

/-- Reads a nonempty digit string in the given base (`digit?` maps a
character to its value), accumulating left to right. -/
def readNum (base : Nat) (digit? : Char → Option Nat) : List Char → Nat → Option Nat
  | [], acc => some acc
  | c :: rest, acc =>
      match digit? c with
      | some d => readNum base digit? rest (acc * base + d)
      | none => none

/-- Modelled from the spec: the `FromStr` implementation for `Address`
(invoked by `name.parse()?` in `Parser::parse`) is missing from `src/`.
Spec section 4.1: construct from a dotted-decimal v4 literal — four
dot-separated decimal octets, each at most 255. -/
def parseIpv4 (s : String) : Option Ipv4Address :=
  match (splitChar '.' s.toList).map (fun part =>
      if part.isEmpty then none else readNum 10 decDigit? part 0) with
  | [some a, some b, some c, some d] =>
      if a ≤ 255 && b ≤ 255 && c ≤ 255 && d ≤ 255 then
        some { o0 := a, o1 := b, o2 := c, o3 := d }
      else none
  | _ => none

/-- Modelled from the spec: colon-hex v6 literal — eight colon-separated
groups of hex digits, each at most 0xffff (the zero-compression shorthand
is not modelled; no claim depends on it). -/
def parseIpv6 (s : String) : Option Ipv6Address :=
  match (splitChar ':' s.toList).map (fun part =>
      if part.isEmpty then none else readNum 16 hexDigit? part 0) with
  | [some a, some b, some c, some d, some e, some f, some g, some h] =>
      if a ≤ 0xffff && b ≤ 0xffff && c ≤ 0xffff && d ≤ 0xffff &&
         e ≤ 0xffff && f ≤ 0xffff && g ≤ 0xffff && h ≤ 0xffff then
        some { g0 := a, g1 := b, g2 := c, g3 := d,
               g4 := e, g5 := f, g6 := g, g7 := h }
      else none
  | _ => none

/-- Modelled from the spec: `Address` is constructed from a textual
literal, failing with an address parse error if the literal conforms to
neither the v4 nor the v6 grammar. -/
def Address.fromStr (s : String) : Except AddrParseError Address :=
  match parseIpv4 s with
  | some a => Except.ok (Address.Ipv4 a)
  | none =>
      match parseIpv6 s with
      | some a => Except.ok (Address.Ipv6 a)
      | none => Except.error AddrParseError.mk

/-- Stands for `std::io::Error`: an I/O failure, identified only by an
abstract code. -/
structure IoError where
  code : Nat
deriving DecidableEq

/-- `enum ParserError` from the source: `CouldNotOpen(io::Error)`,
`ParseError(AddrParseError)`, `Unknown(String)`. -/
inductive ParserError where
  | CouldNotOpen : IoError → ParserError
  | ParseError : AddrParseError → ParserError
  | Unknown : String → ParserError
deriving DecidableEq

/-- `enum Part` from the source. -/
inductive Part where
  | Addr
  | Names
  | Comment
  | Unknown
deriving DecidableEq

/-- `struct Parser { line: i64, part: Part, records: Vec<Record> }` from
the source. -/
structure Parser where
  line : Int
  part : Part
  records : List Record
deriving DecidableEq

/-- `impl Default for Parser`: line 0, part Unknown, no records. -/
def Parser.default : Parser :=
  { line := 0, part := Part.Unknown, records := [] }

/-- The input to `Parser::parse`, as the shallow embedding sees it:
either the file cannot be opened (`File::open` fails), or it opens and
`BufReader::lines` yields a sequence of line reads, each an I/O error or
a text line (line endings already removed). -/
inductive HostsFile where
  | cantOpen : IoError → HostsFile
  | opened : List (Except IoError String) → HostsFile

/-- `a.starts_with('#')` from `Parser::parse`: whether the first
character of the line is `#`. -/
def firstCharIsHash (a : String) : Bool :=
  match a.data with
  | c :: _ => c = '#'
  | [] => false

/-- Tokenization of one line, from `Parser::parse`:
`a.replace("\t", " ")` then `a.split(' ')` then
`.filter(|&s| !s.is_empty())`. -/
def tokenizeLine (a : String) : List String :=
  ((splitChar ' '
      (a.toList.map (fun c => if c = '\t' then ' ' else c))).map
    String.mk).filter (fun s => !s.isEmpty)

/-- Outcome of the per-line loop of `Parser::parse`, tracking the record
accumulator `self.records`: normal completion, early `?` return with a
`ParserError` (the records pushed so far remain in `self`), or a panic
(`Vec::remove(0)` on an empty vector). -/
inductive LinesOutcome where
  | ok : List Record → LinesOutcome
  | err : ParserError → List Record → LinesOutcome
  | panicked : String → LinesOutcome
deriving DecidableEq

/-- The `for line in buff` loop of `Parser::parse`, one line read at a
time, threading `self.records`:
a failed line read is skipped by `if let Ok(a) = line`; an empty line or
a `#`-initial line is skipped; otherwise the line is tokenized,
`record_info.remove(0)` takes the first token (panicking if there is
none), `name.parse()?` aborts on an address parse error, and
`if let Ok(record) = Record::new(..)` pushes the record on success and
silently drops the line on validation failure. -/
def parseLines : List (Except IoError String) → List Record → LinesOutcome
  | [], records => LinesOutcome.ok records
  | Except.error _ :: rest, records => parseLines rest records
  | Except.ok a :: rest, records =>
      if a.data.isEmpty then parseLines rest records
      else if firstCharIsHash a then parseLines rest records
      else
        match tokenizeLine a with
        | [] => LinesOutcome.panicked "removal index (is 0) should be < len (is 0)"
        | name :: addrs =>
            match Address.fromStr name with
            | Except.error e => LinesOutcome.err (ParserError.ParseError e) records
            | Except.ok addr =>
                match Record.new addr addrs with
                | Except.ok record => parseLines rest (records ++ [record])
                | Except.error _ => parseLines rest records

/-- Result of one call to `Parser::parse(&mut self, ..)`: the Rust
function returns `Result<(), ParserError>` and mutates `self`, so the
embedding returns the updated parser alongside the result (or records a
panic). -/
inductive ParseOutcome where
  | ok : Parser → ParseOutcome
  | err : ParserError → Parser → ParseOutcome
  | panicked : String → ParseOutcome
deriving DecidableEq

/-- `Parser::parse` from the source: open the file (`?` converts the I/O
failure into `CouldNotOpen` and returns it before `self` is touched),
set `self.part = Part::Names`, then run the per-line loop. -/
def Parser.parse (p : Parser) (file : HostsFile) : ParseOutcome :=
  match file with
  | HostsFile.cantOpen e => ParseOutcome.err (ParserError.CouldNotOpen e) p
  | HostsFile.opened lns =>
      match parseLines lns p.records with
      | LinesOutcome.ok rs =>
          ParseOutcome.ok { p with part := Part.Names, records := rs }
      | LinesOutcome.err e rs =>
          ParseOutcome.err e { p with part := Part.Names, records := rs }
      | LinesOutcome.panicked msg => ParseOutcome.panicked msg

/-- Records produced by parsing a file with a fresh (`Default`) parser,
when the parse succeeds. -/
def recordsOf (file : HostsFile) : List Record :=
  match Parser.default.parse file with
  | ParseOutcome.ok p => p.records
  | _ => []

/-- Prepends a record list to the accumulator carried by a loop
outcome. -/
def LinesOutcome.prepend (rs : List Record) : LinesOutcome → LinesOutcome
  | LinesOutcome.ok recs => LinesOutcome.ok (rs ++ recs)
  | LinesOutcome.err e recs => LinesOutcome.err e (rs ++ recs)
  | LinesOutcome.panicked m => LinesOutcome.panicked m

/-- The per-line loop only ever pushes onto the accumulator, so records
already present when the loop starts sit untouched in front of whatever
the loop produces. -/
theorem parseLines_prepend (lns : List (Except IoError String))
    (rs0 : List Record) :
    ∀ rs, parseLines lns (rs0 ++ rs) = (parseLines lns rs).prepend rs0 := by
  induction lns with
  | nil =>
      intro rs
      simp [parseLines, LinesOutcome.prepend]
  | cons l rest ih =>
      intro rs
      cases l with
      | error e => simpa [parseLines] using ih rs
      | ok a =>
          by_cases h1 : a.data.isEmpty = true
          · simpa [parseLines, h1] using ih rs
          · by_cases h2 : firstCharIsHash a = true
            · simpa [parseLines, h1, h2] using ih rs
            · cases htok : tokenizeLine a with
              | nil => simp [parseLines, h1, h2, htok, LinesOutcome.prepend]
              | cons name addrs =>
                  cases hp : Address.fromStr name with
                  | error e =>
                      simp [parseLines, h1, h2, htok, hp, LinesOutcome.prepend]
                  | ok addr =>
                      cases hr : Record.new addr addrs with
                      | error e =>
                          simpa [parseLines, h1, h2, htok, hp, hr] using ih rs
                      | ok record =>
                          simpa [parseLines, h1, h2, htok, hp, hr,
                            List.append_assoc] using ih (rs ++ [record])

/-- C1 counterexample: the claim says an unparseable address literal is
discarded silently with subsequent lines still processed.  On the file
`["not-an-ip somehost", "127.0.0.1 localhost"]` the parse instead
returns `ParserError::ParseError` to the caller and the valid second
line contributes nothing (the record list stays empty). -/
theorem c1_counterexample :
    Parser.default.parse (HostsFile.opened
      [Except.ok "not-an-ip somehost", Except.ok "127.0.0.1 localhost"]) =
    ParseOutcome.err (ParserError.ParseError AddrParseError.mk)
      { line := 0, part := Part.Names, records := [] } := by decide

/-- C1 (amended): a line whose address literal fails to parse aborts
`Parser::parse` at once — `name.parse()?` propagates the failure as
`ParserError::ParseError`, the accumulator keeps only what earlier lines
produced, and the remaining lines are not processed. -/
theorem c1_parse_error_aborts (a : String)
    (rest : List (Except IoError String)) (records : List Record)
    (name : String) (addrs : List String) (e : AddrParseError)
    (hne : a.data.isEmpty = false) (hh : firstCharIsHash a = false)
    (htok : tokenizeLine a = name :: addrs)
    (hp : Address.fromStr name = Except.error e) :
    parseLines (Except.ok a :: rest) records =
      LinesOutcome.err (ParserError.ParseError e) records := by
  simp [parseLines, hne, hh, htok, hp]

/-- C1 witness: the amended theorem applied to the line
`"not-an-ip somehost"` followed by a valid line. -/
theorem c1_parse_error_aborts_witness :
    parseLines [Except.ok "not-an-ip somehost", Except.ok "127.0.0.1 localhost"] [] =
      LinesOutcome.err (ParserError.ParseError AddrParseError.mk) [] :=
  c1_parse_error_aborts "not-an-ip somehost" [Except.ok "127.0.0.1 localhost"]
    [] "not-an-ip" ["somehost"] AddrParseError.mk
    (by decide) (by decide) (by decide) (by decide)

/-- C2: `Record::new a n` succeeds exactly when
`a.is_loopback() || a.is_private()` holds, and otherwise returns the
`InvalidIpAddress` variant (the spec's `InvalidAddress`) carrying the
textual form of the address.  Purity holds by construction of the
embedding: the result depends only on the two arguments. -/
theorem c2_record_new_gate (a : Address) (n : List String) :
    ((∃ r, Record.new a n = Except.ok r) ↔ (a.is_loopback || a.is_private) = true) ∧
    ((a.is_loopback || a.is_private) = false →
      Record.new a n = Except.error (RecordError.InvalidIpAddress a.to_string)) := by
  cases h1 : a.is_private <;> cases h2 : a.is_loopback <;>
    simp [Record.new, h1, h2]

/-- C2 witness: the gate applied to the global address 8.8.8.8. -/
theorem c2_record_new_gate_witness :
    Record.new (Address.Ipv4 ⟨8, 8, 8, 8⟩) ["dns.google"] =
      Except.error (RecordError.InvalidIpAddress "8.8.8.8") :=
  (c2_record_new_gate (Address.Ipv4 ⟨8, 8, 8, 8⟩) ["dns.google"]).2 (by decide)

/-- C3 counterexample: the claim says `CouldNotOpen` is the only error
that aborts `Parser::parse` and reaches the caller, yet the file
`["not-an-ip x"]` opens fine and still aborts with
`ParserError::ParseError`. -/
theorem c3_counterexample :
    Parser.default.parse (HostsFile.opened [Except.ok "not-an-ip x"]) =
      ParseOutcome.err (ParserError.ParseError AddrParseError.mk)
        { line := 0, part := Part.Names, records := [] } := by decide

/-- C3 (amended): when the file cannot be opened, `Parser::parse`
returns `CouldNotOpen` wrapping the underlying I/O failure and the
parser is left untouched (no partial record set is added); an I/O
failure while reading an individual line, by contrast, is skipped
silently by the loop (and `CouldNotOpen` is not the only aborting
error — an address parse failure also aborts, see
`c1_parse_error_aborts`). -/
theorem c3_could_not_open (p : Parser) (e : IoError)
    (rest : List (Except IoError String)) (records : List Record) :
    p.parse (HostsFile.cantOpen e) =
      ParseOutcome.err (ParserError.CouldNotOpen e) p ∧
    parseLines (Except.error e :: rest) records = parseLines rest records :=
  ⟨rfl, rfl⟩

/-- C4: the spec requires a line that tokenizes to zero tokens (for
example a line holding a single space) to be skipped; the code instead
calls `record_info.remove(0)` on the empty token vector, which panics. -/
theorem c4_blank_token_line_panics :
    Parser.default.parse (HostsFile.opened [Except.ok " "]) =
      ParseOutcome.panicked "removal index (is 0) should be < len (is 0)" := by
  decide

/-- C5: for every loopback or private address and every name list
(empty included), `Record::new` succeeds with exactly that address and
exactly those names, in order. -/
theorem c5_record_new_accepts (a : Address) (n : List String)
    (h : a.is_loopback = true ∨ a.is_private = true) :
    Record.new a n = Except.ok { addr := a, names := n } := by
  rcases h with h | h <;> simp [Record.new, h]

/-- C5 witness: the loopback address 127.0.0.1 with names
`["localhost"]`. -/
theorem c5_record_new_accepts_witness :
    Record.new (Address.Ipv4 ⟨127, 0, 0, 1⟩) ["localhost"] =
      Except.ok { addr := Address.Ipv4 ⟨127, 0, 0, 1⟩, names := ["localhost"] } :=
  c5_record_new_accepts (Address.Ipv4 ⟨127, 0, 0, 1⟩) ["localhost"]
    (Or.inl (by decide))

/-- C6: on a non-skipped line, tokenization (tab normalization, split on
spaces, empty tokens dropped) yields `name :: addrs`; the first token is
parsed as the address and the remaining tokens, in encounter order,
become the names of the record appended to the accumulator. -/
theorem c6_first_token_address_rest_names (a : String)
    (rest : List (Except IoError String)) (records : List Record)
    (name : String) (addrs : List String) (addr : Address)
    (hne : a.data.isEmpty = false) (hh : firstCharIsHash a = false)
    (htok : tokenizeLine a = name :: addrs)
    (hp : Address.fromStr name = Except.ok addr)
    (hv : (addr.is_private || addr.is_loopback) = true) :
    parseLines (Except.ok a :: rest) records =
      parseLines rest (records ++ [{ addr := addr, names := addrs }]) := by
  simp [parseLines, hne, hh, htok, hp, Record.new, hv]

/-- C6 witness: the line `"192.168.10.42 core.naus core"` yields one
record with address 192.168.10.42 and names
`["core.naus", "core"]` in that order. -/
theorem c6_first_token_address_rest_names_witness :
    Parser.default.parse
      (HostsFile.opened [Except.ok "192.168.10.42 core.naus core"]) =
    ParseOutcome.ok
      { line := 0, part := Part.Names,
        records := [{ addr := Address.Ipv4 ⟨192, 168, 10, 42⟩,
                      names := ["core.naus", "core"] }] } := by
  have h := c6_first_token_address_rest_names "192.168.10.42 core.naus core"
    [] [] "192.168.10.42" ["core.naus", "core"] (Address.Ipv4 ⟨192, 168, 10, 42⟩)
    (by decide) (by decide) (by decide) (by decide) (by decide)
  have hall : parseLines [Except.ok "192.168.10.42 core.naus core"]
      ([] : List Record) =
      LinesOutcome.ok [{ addr := Address.Ipv4 ⟨192, 168, 10, 42⟩,
                         names := ["core.naus", "core"] }] :=
    h.trans rfl
  simp [Parser.parse, Parser.default, hall]

/-- C7: a line whose address literal parses but is neither loopback nor
private is discarded silently — the loop continues with the accumulator
unchanged. -/
theorem c7_global_address_discarded (a : String)
    (rest : List (Except IoError String)) (records : List Record)
    (name : String) (addrs : List String) (addr : Address)
    (hne : a.data.isEmpty = false) (hh : firstCharIsHash a = false)
    (htok : tokenizeLine a = name :: addrs)
    (hp : Address.fromStr name = Except.ok addr)
    (hv : (addr.is_private || addr.is_loopback) = false) :
    parseLines (Except.ok a :: rest) records = parseLines rest records := by
  simp [parseLines, hne, hh, htok, hp, Record.new, hv]

/-- C7 witness: the line `"8.8.8.8 dns.google"` contributes zero
records. -/
theorem c7_global_address_discarded_witness :
    parseLines [Except.ok "8.8.8.8 dns.google"] [] = LinesOutcome.ok [] :=
  (c7_global_address_discarded "8.8.8.8 dns.google" [] [] "8.8.8.8"
    ["dns.google"] (Address.Ipv4 ⟨8, 8, 8, 8⟩)
    (by decide) (by decide) (by decide) (by decide) (by decide)).trans rfl

/-- C8: an empty line, or a line whose first character is `#`, is
skipped — the loop continues with the accumulator unchanged. -/
theorem c8_blank_and_comment_skipped (a : String)
    (rest : List (Except IoError String)) (records : List Record)
    (h : a.data.isEmpty = true ∨ firstCharIsHash a = true) :
    parseLines (Except.ok a :: rest) records = parseLines rest records := by
  rcases h with h | h
  · simp [parseLines, h]
  · simp [parseLines, h]

/-- C8 witness: a file holding only comment lines and blank lines
parses successfully into an empty record sequence, by skipping each
line in turn. -/
theorem c8_blank_and_comment_skipped_witness :
    Parser.default.parse
      (HostsFile.opened [Except.ok "# static hosts", Except.ok "", Except.ok "# end"]) =
    ParseOutcome.ok { line := 0, part := Part.Names, records := [] } := by
  have h1 := c8_blank_and_comment_skipped "# static hosts"
    [Except.ok "", Except.ok "# end"] [] (Or.inr (by decide))
  have h2 := c8_blank_and_comment_skipped ""
    [Except.ok "# end"] [] (Or.inl (by decide))
  have h3 := c8_blank_and_comment_skipped "# end" [] [] (Or.inr (by decide))
  have hall : parseLines
      [Except.ok "# static hosts", Except.ok "", Except.ok "# end"]
      ([] : List Record) = LinesOutcome.ok [] :=
    ((h1.trans h2).trans h3).trans rfl
  simp [Parser.parse, Parser.default, hall]

/-- C9: a second `parse` call on the same `Parser` appends to the same
accumulator: after two successful calls starting from a default parser,
the record sequence is the records of the first file followed by the
records of the second. -/
theorem c9_reuse_appends (f1 f2 : HostsFile) (p1 p2 : Parser)
    (h1 : Parser.default.parse f1 = ParseOutcome.ok p1)
    (h2 : p1.parse f2 = ParseOutcome.ok p2) :
    p1.records = recordsOf f1 ∧
    p2.records = recordsOf f1 ++ recordsOf f2 := by
  cases f1 with
  | cantOpen e => simp [Parser.parse] at h1
  | opened lns1 =>
      simp only [Parser.parse] at h1
      cases hl1 : parseLines lns1 Parser.default.records <;>
        rw [hl1] at h1 <;> cases h1
      rename_i rs1
      have hrec1 : recordsOf (HostsFile.opened lns1) = rs1 := by
        simp [recordsOf, Parser.parse, hl1]
      refine ⟨hrec1.symm, ?_⟩
      cases f2 with
      | cantOpen e => simp [Parser.parse] at h2
      | opened lns2 =>
          simp only [Parser.parse] at h2
          have hpre : parseLines lns2 rs1 =
              (parseLines lns2 []).prepend rs1 := by
            have := parseLines_prepend lns2 rs1 []
            simpa using this
          rw [hpre] at h2
          cases hl2 : parseLines lns2 ([] : List Record) with
          | ok rs2 =>
              rw [hl2] at h2
              simp only [LinesOutcome.prepend] at h2
              cases h2
              have hrec2 : recordsOf (HostsFile.opened lns2) = rs2 := by
                simp [recordsOf, Parser.parse, Parser.default, hl2]
              simp [hrec1, hrec2]
          | err e rs2 =>
              rw [hl2] at h2
              simp [LinesOutcome.prepend] at h2
          | panicked m =>
              rw [hl2] at h2
              simp [LinesOutcome.prepend] at h2

/-- C9 witness: parsing `"127.0.0.1 a"` then `"10.0.0.1 b"` through the
same parser leaves both records, in call order, in the accumulator. -/
theorem c9_reuse_appends_witness :
    ({ line := 0, part := Part.Names,
       records := [{ addr := Address.Ipv4 ⟨127, 0, 0, 1⟩, names := ["a"] }] } :
        Parser).records =
      recordsOf (HostsFile.opened [Except.ok "127.0.0.1 a"]) ∧
    ({ line := 0, part := Part.Names,
       records := [{ addr := Address.Ipv4 ⟨127, 0, 0, 1⟩, names := ["a"] },
                   { addr := Address.Ipv4 ⟨10, 0, 0, 1⟩, names := ["b"] }] } :
        Parser).records =
      recordsOf (HostsFile.opened [Except.ok "127.0.0.1 a"]) ++
        recordsOf (HostsFile.opened [Except.ok "10.0.0.1 b"]) :=
  c9_reuse_appends
    (HostsFile.opened [Except.ok "127.0.0.1 a"])
    (HostsFile.opened [Except.ok "10.0.0.1 b"])
    { line := 0, part := Part.Names,
      records := [{ addr := Address.Ipv4 ⟨127, 0, 0, 1⟩, names := ["a"] }] }
    { line := 0, part := Part.Names,
      records := [{ addr := Address.Ipv4 ⟨127, 0, 0, 1⟩, names := ["a"] },
                  { addr := Address.Ipv4 ⟨10, 0, 0, 1⟩, names := ["b"] }] }
    (by decide) (by decide)

/-- C10 counterexample: the claim says the line counter advances as
lines are consumed and reflects the number of lines processed; parsing
a one-line file from a default parser leaves `line` at 0, not 1. -/
theorem c10_counterexample :
    Parser.default.parse (HostsFile.opened [Except.ok "127.0.0.1 localhost"]) =
      ParseOutcome.ok
        { line := 0, part := Part.Names,
          records := [{ addr := Address.Ipv4 ⟨127, 0, 0, 1⟩,
                        names := ["localhost"] }] } ∧
    (0 : Int) ≠ 1 :=
  ⟨by decide, by decide⟩

/-- C10 (amended): the `Parser` state carries a `line` field intended as
a line counter, but `parse` never updates it: whether the call succeeds
or aborts with an error, the field keeps the value it had before the
call, regardless of how many lines were consumed (informational only —
it does not affect the records). -/
theorem c10_line_counter_never_advances (p : Parser) (f : HostsFile) :
    (∀ q, p.parse f = ParseOutcome.ok q → q.line = p.line) ∧
    (∀ e q, p.parse f = ParseOutcome.err e q → q.line = p.line) := by
  constructor
  · intro q hq
    cases f with
    | cantOpen e => simp [Parser.parse] at hq
    | opened lns =>
        simp only [Parser.parse] at hq
        cases hl : parseLines lns p.records <;> rw [hl] at hq <;> cases hq
        rfl
  · intro e q hq
    cases f with
    | cantOpen e2 =>
        simp only [Parser.parse] at hq
        cases hq
        rfl
    | opened lns =>
        simp only [Parser.parse] at hq
        cases hl : parseLines lns p.records <;> rw [hl] at hq <;> cases hq
        rfl

/-- C10 witness: the amended theorem applied to a default parser and a
one-line file. -/
theorem c10_line_counter_never_advances_witness :
    ({ line := 0, part := Part.Names,
       records := [{ addr := Address.Ipv4 ⟨127, 0, 0, 1⟩,
                     names := ["localhost"] }] } : Parser).line =
      Parser.default.line :=
  (c10_line_counter_never_advances Parser.default
      (HostsFile.opened [Except.ok "127.0.0.1 localhost"])).1 _ (by decide)

end HostsDigger
